import Mathlib

/-!
Verification of the lumina-core real-time notification subsystem.

The development shallowly embeds the Python sources:
  * src/utils/websockets.py   (WebSocketManager: connect, disconnect, send, broadcast_json)
  * src/status.py             (SeverityEnum, StatusMessage and its pydantic codec)
  * src/database/redis_client.py (publish, subscribe, notify_user)

Python websockets are identified by natural numbers, account ids by strings.
The registry dict `connections : Dict[str, List[WebSocket]]` is embedded as an
association list with unique keys, in insertion order, as CPython dicts behave.
-/

namespace Lumina

/-- A websocket handle. -/
abbrev WS := Nat

/-- The registry map of `WebSocketManager.connections`: recipient id to the
list of live websockets, in insertion order. -/
abbrev ConnMap := List (String × List WS)

/-- Python exceptions that the embedded code can raise. -/
inductive PyExc where
  | valueError
  | connectionError
  deriving DecidableEq, Repr

/-- Dict lookup `d.get(k)` / `d[k]`: first (unique) binding of the key. -/
def dictGet (k : String) : ConnMap → Option (List WS)
  | [] => none
  | (k₂, v) :: rest => if k₂ = k then some v else dictGet k rest

/-- Dict update `d[k] = v` for a key already present (in-place, keeps order). -/
def dictSet (k : String) (v : List WS) : ConnMap → ConnMap
  | [] => []
  | (k₂, v₂) :: rest => if k₂ = k then (k₂, v) :: rest else (k₂, v₂) :: dictSet k v rest

/-- Dict deletion `del d[k]`. -/
def dictDel (k : String) : ConnMap → ConnMap
  | [] => []
  | (k₂, v₂) :: rest => if k₂ = k then rest else (k₂, v₂) :: dictDel k rest

/-- Python `list.remove(x)`: remove the first occurrence of `x`; `none` models
the `ValueError` raised when `x` is absent. -/
def pyRemove (x : WS) : List WS → Option (List WS)
  | [] => none
  | y :: ys => if y = x then some ys else (pyRemove x ys).map (y :: ·)

namespace WebSocketManager

/-- `WebSocketManager.connect` (src/utils/websockets.py lines 40-50): under the
lock, create an empty list for the recipient key when absent, then append the
websocket. -/
def connect (m : ConnMap) (websocket : WS) (accountId : String) : ConnMap :=
  match dictGet accountId m with
  | none => m ++ [(accountId, [websocket])]
  | some l => dictSet accountId (l ++ [websocket]) m

/-- `WebSocketManager.disconnect` (src/utils/websockets.py lines 52-62): under
the lock, when the recipient key is present remove the websocket from its list
(`list.remove` raises `ValueError` when absent) and delete the key when the
list became empty; when the key is absent nothing happens. -/
def disconnect (m : ConnMap) (websocket : WS) (accountId : String) :
    Except PyExc ConnMap :=
  match dictGet accountId m with
  | none => .ok m
  | some l =>
    match pyRemove websocket l with
    | none => .error .valueError
    | some [] => .ok (dictDel accountId m)
    | some l₂ => .ok (dictSet accountId l₂ m)

end WebSocketManager

/-- A connection-lifecycle operation on the registry. -/
inductive Op where
  | connect (websocket : WS) (accountId : String)
  | disconnect (websocket : WS) (accountId : String)

/-- Apply one operation. A `disconnect` that raises `ValueError` leaves the
registry unchanged (`list.remove` raises before any mutation). -/
def applyOp (m : ConnMap) : Op → ConnMap
  | .connect ws uid => WebSocketManager.connect m ws uid
  | .disconnect ws uid =>
    match WebSocketManager.disconnect m ws uid with
    | .ok m₂ => m₂
    | .error _ => m

/-- Run a sequence of operations from the empty registry. -/
def runOps (ops : List Op) : ConnMap := ops.foldl applyOp []

/-- The registry invariant: every present recipient key maps to a non-empty
connection list. -/
def RegistryInv (m : ConnMap) : Prop := ∀ p ∈ m, p.2 ≠ []

theorem dictSet_mem {m : ConnMap} {k : String} {v : List WS} {p : String × List WS}
    (hp : p ∈ dictSet k v m) : p.2 = v ∨ p ∈ m := by
  induction m with
  | nil => simp [dictSet] at hp
  | cons q rest ih =>
    obtain ⟨k₂, v₂⟩ := q
    by_cases h : k₂ = k
    · simp [dictSet, h] at hp
      rcases hp with h₁ | h₁
      · left; rw [h₁]
      · right; exact List.mem_cons_of_mem _ h₁
    · simp [dictSet, h] at hp
      rcases hp with h₁ | h₁
      · right; simp [h₁]
      · rcases ih h₁ with h₂ | h₂
        · left; exact h₂
        · right; exact List.mem_cons_of_mem _ h₂

theorem dictDel_mem {m : ConnMap} {k : String} {p : String × List WS}
    (hp : p ∈ dictDel k m) : p ∈ m := by
  induction m with
  | nil => simp [dictDel] at hp
  | cons q rest ih =>
    obtain ⟨k₂, v₂⟩ := q
    by_cases h : k₂ = k
    · simp [dictDel, h] at hp
      exact List.mem_cons_of_mem _ hp
    · simp [dictDel, h] at hp
      rcases hp with h₁ | h₁
      · simp [h₁]
      · exact List.mem_cons_of_mem _ (ih h₁)

theorem connect_inv {m : ConnMap} (hm : RegistryInv m) (ws : WS) (uid : String) :
    RegistryInv (WebSocketManager.connect m ws uid) := by
  unfold WebSocketManager.connect
  cases hget : dictGet uid m with
  | none =>
    intro p hp
    rcases List.mem_append.mp hp with h | h
    · exact hm p h
    · simp at h; rw [h]; simp
  | some l =>
    intro p hp
    rcases dictSet_mem hp with h | h
    · rw [h]; simp
    · exact hm p h

theorem disconnect_inv {m : ConnMap} (hm : RegistryInv m) (ws : WS) (uid : String)
    {m₂ : ConnMap} (h : WebSocketManager.disconnect m ws uid = .ok m₂) :
    RegistryInv m₂ := by
  unfold WebSocketManager.disconnect at h
  split at h
  · cases h; exact hm
  · split at h
    · cases h
    · cases h
      intro p hp
      exact hm p (dictDel_mem hp)
    · rename_i l₂ hne heq
      cases h
      intro p hp
      rcases dictSet_mem hp with h₁ | h₁
      · rw [h₁]; exact hne
      · exact hm p h₁

theorem applyOp_inv {m : ConnMap} (hm : RegistryInv m) (op : Op) :
    RegistryInv (applyOp m op) := by
  cases op with
  | connect ws uid => exact connect_inv hm ws uid
  | disconnect ws uid =>
    simp only [applyOp]
    split
    · rename_i m₂ hdis
      exact disconnect_inv hm ws uid hdis
    · exact hm

/-- C1: for every finite sequence of connect/disconnect operations starting
from the empty registry, no recipient key in the connections map is ever
mapped to an empty connection list. -/
theorem registry_never_maps_to_empty (ops : List Op) :
    ∀ p ∈ runOps ops, p.2 ≠ [] := by
  suffices h : ∀ (m : ConnMap), RegistryInv m → RegistryInv (ops.foldl applyOp m) by
    exact h [] (by intro p hp; simp at hp)
  induction ops with
  | nil => intro m hm; exact hm
  | cons op rest ih =>
    intro m hm
    exact ih (applyOp m op) (applyOp_inv hm op)

/-- Witness for C1 at a concrete operation sequence. -/
theorem registry_never_maps_to_empty_witness :
    ("u1", [1]) ∈ runOps [Op.connect 1 "u1", Op.connect 2 "u1", Op.disconnect 2 "u1"] ∧
    ("u1", ([1] : List WS)).2 ≠ [] :=
  ⟨by decide,
   registry_never_maps_to_empty
     [Op.connect 1 "u1", Op.connect 2 "u1", Op.disconnect 2 "u1"]
     ("u1", [1]) (by decide)⟩

theorem pyRemove_eq_none {x : WS} {l : List WS} (h : x ∉ l) :
    pyRemove x l = none := by
  induction l with
  | nil => rfl
  | cons y ys ih =>
    simp at h
    simp [pyRemove, Ne.symm h.1, ih h.2]

/-- C10: disconnecting a websocket that is not among a present recipient's
connections raises `ValueError` (not a silent no-op), while disconnecting when
the recipient key is absent returns normally with the registry unchanged. -/
theorem disconnect_absent_behaviour (m : ConnMap) (ws : WS) (uid : String) :
    (∀ l, dictGet uid m = some l → ws ∉ l →
      WebSocketManager.disconnect m ws uid = .error .valueError) ∧
    (dictGet uid m = none → WebSocketManager.disconnect m ws uid = .ok m) := by
  constructor
  · intro l hget hmem
    simp [WebSocketManager.disconnect, hget, pyRemove_eq_none hmem]
  · intro hget
    simp [WebSocketManager.disconnect, hget]

/-- Witness for C10 at a concrete registry. -/
theorem disconnect_absent_behaviour_witness :
    WebSocketManager.disconnect [("u1", [5])] 7 "u1" = .error .valueError ∧
    WebSocketManager.disconnect [("u1", [5])] 7 "u2" = .ok [("u1", [5])] :=
  ⟨(disconnect_absent_behaviour [("u1", [5])] 7 "u1").1 [5] (by decide) (by decide),
   (disconnect_absent_behaviour [("u1", [5])] 7 "u2").2 (by decide)⟩

/-! ## WebSocketManager.send (src/utils/websockets.py lines 64-77)

The Python code binds `connections = self.connections.get(user_id, [])`, which
is the registry's own list object, and then runs a `for` loop over it.  CPython
iterates a list by an internal index that advances by one each iteration and
rereads the (possibly mutated) list.  When `send_json` raises
`WebSocketDisconnect`, the handler awaits `self.disconnect(websocket, account)`
which calls `list.remove` on that same list object, shrinking it in place
underneath the iterator.  The embedding carries the iterated list `lst` and the
registry `m` side by side, with the index `i` advancing exactly as CPython's
list iterator does. -/

/-- Outcome of one `WebSocketManager.send` call. -/
structure SendResult where
  /-- Websockets whose `send_json` completed without raising. -/
  delivered : List WS
  /-- Websockets on which a write was attempted, in attempt order. -/
  attempted : List WS
  /-- The registry after the call. -/
  registry : ConnMap
  deriving DecidableEq, Repr

/-- The `for websocket in connections` loop of `WebSocketManager.send`:
index-based iteration over the live list.  On a failing write the websocket is
disconnected, which removes it from the very list being iterated.  The loop
stops once the index reaches the (current) length.  The fuel argument only
drives structural recursion: the index grows by one and the list never grows,
so the iteration count is bounded by the initial length, which `send` passes
as fuel; the fuel-exhausted branch is unreachable. -/
def sendLoop (fails : WS → Bool) (accountId : String) :
    Nat → ConnMap → List WS → Nat → SendResult
  | 0, m, _, _ => { delivered := [], attempted := [], registry := m }
  | fuel + 1, m, lst, i =>
    if h : i < lst.length then
      let ws := lst.get ⟨i, h⟩
      if fails ws then
        let lst₂ := (pyRemove ws lst).getD lst
        let m₂ :=
          match WebSocketManager.disconnect m ws accountId with
          | .ok m₃ => m₃
          | .error _ => m
        let rest := sendLoop fails accountId fuel m₂ lst₂ (i + 1)
        { rest with attempted := ws :: rest.attempted }
      else
        let rest := sendLoop fails accountId fuel m lst (i + 1)
        { rest with delivered := ws :: rest.delivered, attempted := ws :: rest.attempted }
    else
      { delivered := [], attempted := [], registry := m }

/-- `WebSocketManager.send`: read the recipient's live connection list (no
lock, no copy) and run the write loop over it. -/
def send (fails : WS → Bool) (accountId : String) (m : ConnMap) : SendResult :=
  let lst := (dictGet accountId m).getD []
  sendLoop fails accountId lst.length m lst 0

/-- C2 fails on the code: with websockets 1 and 2 registered for u1 and the
write to websocket 1 raising `WebSocketDisconnect`, the mid-iteration
`disconnect` shrinks the live list, the loop skips websocket 2, and websocket 2
never receives the message (only websocket 1 was even attempted); websocket 1
is removed from the registry. -/
theorem send_skips_sibling_after_failure :
    send (fun ws => ws == 1) "u1" [("u1", [1, 2])] =
      { delivered := [], attempted := [1], registry := [("u1", [2])] } := by
  decide

/-! ## WebSocketManager.broadcast_json (src/utils/websockets.py lines 79-91)

The method acquires `self.lock` with `async with` around the whole double loop
over the registry, performs every `send_json` while holding it, and releases
it only when the loop finishes.  On a `WebSocketDisconnect` it awaits
`self.disconnect`, which itself does `async with self.lock`; `asyncio.Lock` is
not reentrant, so that await never completes and the lock is never released.
The embedding records the observable event trace of one call. -/

/-- An observable event during `broadcast_json`. -/
inductive BcEvent where
  | acquire
  | sendOk (ws : WS)
  | sendFail (ws : WS)
  | lockWait
  | release
  deriving DecidableEq, Repr

/-- All registered websockets in iteration order (dict key order, then list
order), as the nested `for` loops of `broadcast_json` visit them. -/
def allConnections (m : ConnMap) : List WS := m.flatMap (·.2)

/-- The send loop of `broadcast_json` while the lock is held: a failing write
makes it await the already-held non-reentrant lock inside `disconnect`, so the
trace ends at `lockWait` and no `release` ever happens. -/
def broadcastGo (fails : WS → Bool) : List WS → List BcEvent
  | [] => [.release]
  | ws :: rest =>
    if fails ws then [.sendFail ws, .lockWait]
    else .sendOk ws :: broadcastGo fails rest

/-- Event trace of one `broadcast_json` call. -/
def broadcastTrace (fails : WS → Bool) (m : ConnMap) : List BcEvent :=
  .acquire :: broadcastGo fails (allConnections m)

/-- Snapshot fan-out read as the spec words it (section 4.1):
`connections_for(recipient)` returns a snapshot of the recipient's current
connections, so every connection present at call time is attempted even if a
failure mutates the registry mid-iteration.  Written from the spec for
comparison with `send`. -/
def sendSpecAttempted (accountId : String) (m : ConnMap) : List WS :=
  (dictGet accountId m).getD []

/-- C9 fails on the code: `send` iterates the registry's own list (a live
view), so after the failing write to websocket 3 it attempts only [3] while a
snapshot read would attempt [3, 4]; and in `broadcast_json` every send event
sits strictly between `acquire` and `release` (the lock is not released before
blocking sends), with a failing send leaving the lock held forever. -/
theorem send_live_view_and_broadcast_lock_held :
    (send (fun ws => ws == 3) "u2" [("u2", [3, 4])]).attempted = [3] ∧
    sendSpecAttempted "u2" [("u2", [3, 4])] = [3, 4] ∧
    broadcastTrace (fun _ => false) [("u2", [3, 4])] =
      [.acquire, .sendOk 3, .sendOk 4, .release] ∧
    broadcastTrace (fun ws => ws == 3) [("u2", [3, 4])] =
      [.acquire, .sendFail 3, .lockWait] := by
  decide

/-! ## The StatusMessage codec (src/status.py)

`StatusMessage` is a pydantic model with `json_encoders` turning the
`SeverityEnum` (an `IntEnum` with `auto()` values 1..4) into its name on
serialization, and a `mode=before` validator `convert_int_serial` that maps a
severity name string back through `SeverityEnum[v]` on validation.  `encode`
is `model_dump_json` (which writes every field, `None` included, as pydantic
does without `exclude_none`); `decode` is model validation of the parsed JSON
object.  JSON is embedded at the value level (objects as key/value lists);
numbers are integers, which covers every wire shape the claims quantify
over. -/

/-- A JSON value. -/
inductive Json where
  | null
  | bool (b : Bool)
  | num (n : Int)
  | str (s : String)
  | arr (elems : List Json)
  | obj (fields : List (String × Json))

/-- Lookup of a key in a JSON object's fields (dicts have unique keys). -/
def jsonGet (k : String) : List (String × Json) → Option Json
  | [] => none
  | (k₂, v) :: rest => if k₂ = k then some v else jsonGet k rest

/-- The fields of a JSON object (empty for non-objects). -/
def objFields : Json → List (String × Json)
  | .obj kvs => kvs
  | _ => []

/-- `SeverityEnum` from src/status.py: an `IntEnum` whose `auto()` members are
error = 1, success = 2, info = 3, warning = 4. -/
inductive SeverityEnum where
  | error
  | success
  | info
  | warning
  deriving DecidableEq, Repr

/-- The enum member's name, as `json_encoders` serializes it. -/
def SeverityEnum.name : SeverityEnum → String
  | .error => "error"
  | .success => "success"
  | .info => "info"
  | .warning => "warning"

/-- Name lookup `SeverityEnum[v]`; `none` models the `KeyError` pydantic wraps
into a `ValidationError`. -/
def SeverityEnum.ofName (s : String) : Option SeverityEnum :=
  if s = "error" then some .error
  else if s = "success" then some .success
  else if s = "info" then some .info
  else if s = "warning" then some .warning
  else none

/-- Value coercion `SeverityEnum(v)` applied by pydantic when the validator
passes a non-string through. -/
def SeverityEnum.ofValue (n : Int) : Option SeverityEnum :=
  if n = 1 then some .error
  else if n = 2 then some .success
  else if n = 3 then some .info
  else if n = 4 then some .warning
  else none

theorem SeverityEnum.ofName_name (v : SeverityEnum) : ofName v.name = some v := by
  cases v <;> rfl

/-- The `StatusMessage` model of src/status.py.  `open` is a Lean keyword, so
the field is `open_`; `error_code : UUID | None` is carried as the canonical
string form of the UUID; `payload : Dict[str, Any] | None` is a JSON object's
field list. -/
structure StatusMessage where
  status : Int
  severity : SeverityEnum
  message : String
  open_ : Bool := true
  error_code : Option String := none
  payload : Option (List (String × Json)) := none

/-! ### Python's `uuid.UUID(str)` parser, used by pydantic for `error_code`.

CPython strips the substrings `urn:` and `uuid:`, strips curly braces from both
ends, removes every hyphen, and requires exactly 32 hexadecimal digits (the
model leaves out CPython's tolerance for numeric-literal underscores in
`int(hex, 16)`, which no claim exercises).  The resulting UUID renders back in
canonical lowercase 8-4-4-4-12 form. -/

def curlyOpen : Char := Char.ofNat 123

def curlyClose : Char := Char.ofNat 125

def isHexDig (c : Char) : Bool :=
  c.isDigit
    || (decide (Char.ofNat 97 ≤ c) && decide (c ≤ Char.ofNat 102))
    || (decide (Char.ofNat 65 ≤ c) && decide (c ≤ Char.ofNat 70))

/-- Remove every left-to-right non-overlapping occurrence of `pat` (non-empty)
from a character list, as `str.replace(pat, "")` does.  The fuel equals the
input length, which bounds the number of steps. -/
def removeOccGo (pat : List Char) : Nat → List Char → List Char
  | _, [] => []
  | 0, cs => cs
  | fuel + 1, c :: rest =>
    if pat.isPrefixOf (c :: rest) then
      removeOccGo pat fuel (rest.drop (pat.length - 1))
    else
      c :: removeOccGo pat fuel rest

def removeOcc (pat : List Char) (cs : List Char) : List Char :=
  removeOccGo pat cs.length cs

/-- Python `str.strip` with both curly brace characters. -/
def stripCurly (cs : List Char) : List Char :=
  let isCurly : Char → Bool := fun c => c == curlyOpen || c == curlyClose
  ((cs.dropWhile isCurly).reverse.dropWhile isCurly).reverse

/-- Canonical 8-4-4-4-12 rendering of 32 hex digit characters. -/
def uuidCanonical (cs : List Char) : String :=
  String.mk (cs.take 8) ++ "-" ++ String.mk ((cs.drop 8).take 4) ++ "-"
    ++ String.mk ((cs.drop 12).take 4) ++ "-" ++ String.mk ((cs.drop 16).take 4)
    ++ "-" ++ String.mk (cs.drop 20)

/-- `uuid.UUID(s)`: `none` models the `ValueError` pydantic wraps into a
`ValidationError`; on success the canonical string form of the parsed UUID. -/
def pyUuidParse (s : String) : Option String :=
  let cs₁ := removeOcc "urn:".toList s.toList
  let cs₂ := removeOcc "uuid:".toList cs₁
  let hexcs := (stripCurly cs₂).filter (fun c => c != '-')
  if hexcs.length == 32 && hexcs.all isHexDig then
    some (uuidCanonical (hexcs.map Char.toLower))
  else
    none

/-- Serialization of `error_code`: `None` becomes JSON null (pydantic without
`exclude_none` writes the field), a UUID becomes its canonical string. -/
def jsonOfOptStr : Option String → Json
  | none => .null
  | some s => .str s

/-- Serialization of `payload`: `None` becomes JSON null, a dict becomes a
JSON object. -/
def jsonOfPayload : Option (List (String × Json)) → Json
  | none => .null
  | some kvs => .obj kvs

/-- `encode`: `StatusMessage.model_dump_json` with the model's
`json_encoders`, writing the declared fields in declaration order, the
severity by its enum name, and `None`-valued optionals as JSON null. -/
def encode (m : StatusMessage) : Json :=
  .obj [("status", .num m.status),
        ("severity", .str m.severity.name),
        ("message", .str m.message),
        ("open", .bool m.open_),
        ("error_code", jsonOfOptStr m.error_code),
        ("payload", jsonOfPayload m.payload)]

/-- Pydantic's `ValidationError` on `StatusMessage` validation (missing
required fields, unknown severity name, type errors, bad UUID); pydantic
aggregates all field errors into the one exception. -/
inductive DecodeError where
  | validation
  deriving DecidableEq, Repr

/-- Validation of the required int field `status`. -/
def statusField (kvs : List (String × Json)) : Except DecodeError Int :=
  match jsonGet "status" kvs with
  | some (.num n) => .ok n
  | _ => .error .validation

/-- Validation of `severity` through the `convert_int_serial` before-validator:
a string goes through `SeverityEnum[v]`, anything else is passed on to the
`IntEnum` coercion. -/
def severityField (kvs : List (String × Json)) : Except DecodeError SeverityEnum :=
  match jsonGet "severity" kvs with
  | some (.str s) =>
    match SeverityEnum.ofName s with
    | some v => .ok v
    | none => .error .validation
  | some (.num n) =>
    match SeverityEnum.ofValue n with
    | some v => .ok v
    | none => .error .validation
  | _ => .error .validation

/-- Validation of the required string field `message`. -/
def messageField (kvs : List (String × Json)) : Except DecodeError String :=
  match jsonGet "message" kvs with
  | some (.str s) => .ok s
  | _ => .error .validation

/-- Validation of `open` with its default `True`. -/
def openField (kvs : List (String × Json)) : Except DecodeError Bool :=
  match jsonGet "open" kvs with
  | none => .ok true
  | some (.bool b) => .ok b
  | _ => .error .validation

/-- Validation of `error_code : UUID | None` with default `None`. -/
def errorCodeField (kvs : List (String × Json)) : Except DecodeError (Option String) :=
  match jsonGet "error_code" kvs with
  | none => .ok none
  | some .null => .ok none
  | some (.str s) =>
    match pyUuidParse s with
    | some u => .ok (some u)
    | none => .error .validation
  | _ => .error .validation

/-- Validation of `payload : Dict[str, Any] | None` with default `None`. -/
def payloadField (kvs : List (String × Json)) : Except DecodeError (Option (List (String × Json))) :=
  match jsonGet "payload" kvs with
  | none => .ok none
  | some .null => .ok none
  | some (.obj o) => .ok (some o)
  | _ => .error .validation

/-- `decode`: pydantic validation of a parsed JSON value against
`StatusMessage`.  All field errors collapse into the single aggregated
`ValidationError`, so the fields can be validated jointly. -/
def decode (j : Json) : Except DecodeError StatusMessage :=
  match j with
  | .obj kvs =>
    match statusField kvs, severityField kvs, messageField kvs,
        openField kvs, errorCodeField kvs, payloadField kvs with
    | .ok st, .ok sv, .ok msg, .ok op, .ok ec, .ok pl =>
      .ok { status := st, severity := sv, message := msg,
            open_ := op, error_code := ec, payload := pl }
    | _, _, _, _, _, _ => .error .validation
  | _ => .error .validation

/-- C3: decoding the wire value produced by encoding a valid StatusMessage
returns that StatusMessage field-for-field, the severity round-tripping
through its enum name and a null payload staying absent.  Validity only
constrains `error_code`: when present it is the canonical string of a UUID
(pyUuidParse fixes it), as a Python `UUID` value serializes to. -/
theorem decode_encode_roundtrip (m : StatusMessage)
    (hec : ∀ s, m.error_code = some s → pyUuidParse s = some s) :
    decode (encode m) = .ok m := by
  obtain ⟨st, sv, msg, op, ec, pl⟩ := m
  cases ec with
  | none =>
    cases pl <;>
      simp [encode, decode, statusField, severityField, messageField, openField,
        errorCodeField, payloadField, jsonGet, jsonOfOptStr, jsonOfPayload,
        SeverityEnum.ofName_name]
  | some s =>
    have hs : pyUuidParse s = some s := hec s rfl
    cases pl <;>
      simp [encode, decode, statusField, severityField, messageField, openField,
        errorCodeField, payloadField, jsonGet, jsonOfOptStr, jsonOfPayload,
        SeverityEnum.ofName_name, hs]

/-- Witness for C3 at a concrete message carrying every optional field. -/
theorem decode_encode_roundtrip_witness :
    pyUuidParse "123e4567-e89b-12d3-a456-426614174000" =
      some "123e4567-e89b-12d3-a456-426614174000" ∧
    decode (encode
      { status := 200, severity := .success, message := "Saved", open_ := true,
        error_code := some "123e4567-e89b-12d3-a456-426614174000",
        payload := some [("key", Json.str "value")] }) =
      Except.ok
        { status := 200, severity := .success, message := "Saved", open_ := true,
          error_code := some "123e4567-e89b-12d3-a456-426614174000",
          payload := some [("key", Json.str "value")] } :=
  ⟨by decide,
   decode_encode_roundtrip _ (fun s hs => by cases hs; decide)⟩

/-- C4 fails on the code: pydantic serialization without `exclude_none` writes
absent optional fields as explicit JSON nulls; at a message with no payload
and no error-correlation id, both keys are present in the wire object mapped
to null instead of being omitted. -/
theorem encode_emits_null_for_absent_optionals :
    jsonGet "payload"
        (objFields (encode { status := 200, severity := .success, message := "Saved" })) =
      some Json.null ∧
    jsonGet "error_code"
        (objFields (encode { status := 200, severity := .success, message := "Saved" })) =
      some Json.null :=
  ⟨rfl, rfl⟩

/-- C4 amended: encode produces a wire object with stable field names in which
enum fields are serialized by their name (never by ordinal), and every
optional field that is absent (payload, error-correlation id) appears with an
explicit null value rather than being omitted. -/
theorem encode_stable_fields_enum_name_nulls (m : StatusMessage) :
    (objFields (encode m)).map Prod.fst =
      ["status", "severity", "message", "open", "error_code", "payload"] ∧
    jsonGet "severity" (objFields (encode m)) = some (.str m.severity.name) ∧
    (∀ n : Int, jsonGet "severity" (objFields (encode m)) ≠ some (.num n)) ∧
    (m.payload = none → jsonGet "payload" (objFields (encode m)) = some .null) ∧
    (m.error_code = none → jsonGet "error_code" (objFields (encode m)) = some .null) := by
  refine ⟨rfl, ?_, ?_, ?_, ?_⟩
  · simp [encode, objFields, jsonGet]
  · intro n
    simp [encode, objFields, jsonGet]
  · intro h
    simp [encode, objFields, jsonGet, h, jsonOfPayload]
  · intro h
    simp [encode, objFields, jsonGet, h, jsonOfOptStr]

/-- Witness for the amended C4 at a concrete message with absent optionals. -/
theorem encode_stable_fields_enum_name_nulls_witness :
    jsonGet "payload"
        (objFields (encode { status := 404, severity := SeverityEnum.info, message := "nf" })) =
      some Json.null ∧
    jsonGet "error_code"
        (objFields (encode { status := 404, severity := SeverityEnum.info, message := "nf" })) =
      some Json.null :=
  ⟨(encode_stable_fields_enum_name_nulls
      { status := 404, severity := SeverityEnum.info, message := "nf" }).2.2.2.1 rfl,
   (encode_stable_fields_enum_name_nulls
      { status := 404, severity := SeverityEnum.info, message := "nf" }).2.2.2.2 rfl⟩

/-! ### Well-formed wire values and when decoding fails (claim C5). -/

def isNumJ : Json → Bool
  | .num _ => true
  | _ => false

def isStrJ : Json → Bool
  | .str _ => true
  | _ => false

def isBoolJ : Json → Bool
  | .bool _ => true
  | _ => false

def isNullJ : Json → Bool
  | .null => true
  | _ => false

def isObjJ : Json → Bool
  | .obj _ => true
  | _ => false

/-- A JSON value that `uuid.UUID` accepts. -/
def isUuidStr : Json → Bool
  | .str s => (pyUuidParse s).isSome
  | _ => false

/-- Shape of an optional field: absent, or present with the given shape. -/
def optShape (o : Option Json) (p : Json → Bool) : Bool :=
  match o with
  | none => true
  | some v => p v

/-- Object keys are pairwise distinct, as in a parsed JSON dict. -/
def keysNodup : List (String × Json) → Bool
  | [] => true
  | (k, _) :: rest => !(rest.any (fun q => q.1 == k)) && keysNodup rest

/-- A well-formed wire value for the status-message channel (spec section 6):
a JSON object with unique keys whose known fields, when present, carry their
declared types; severity travels as a string (the enum name) on the wire. -/
def wellFormedWire (j : Json) : Bool :=
  match j with
  | .obj kvs =>
    keysNodup kvs
      && optShape (jsonGet "status" kvs) isNumJ
      && optShape (jsonGet "severity" kvs) isStrJ
      && optShape (jsonGet "message" kvs) isStrJ
      && optShape (jsonGet "open" kvs) isBoolJ
      && optShape (jsonGet "error_code" kvs) (fun v => isNullJ v || isUuidStr v)
      && optShape (jsonGet "payload" kvs) (fun v => isNullJ v || isObjJ v)
  | _ => false

/-- All three required fields are present. -/
def hasRequiredFields (j : Json) : Bool :=
  match j with
  | .obj kvs =>
    (jsonGet "status" kvs).isSome && (jsonGet "severity" kvs).isSome
      && (jsonGet "message" kvs).isSome
  | _ => false

/-- The severity field carries a recognized enum name. -/
def severityNameRecognized (j : Json) : Bool :=
  match j with
  | .obj kvs =>
    match jsonGet "severity" kvs with
    | some (.str s) => (SeverityEnum.ofName s).isSome
    | _ => false
  | _ => false

theorem statusField_spec {kvs : List (String × Json)}
    (h : optShape (jsonGet "status" kvs) isNumJ = true) :
    (∃ n, jsonGet "status" kvs = some (.num n) ∧ statusField kvs = .ok n) ∨
      (jsonGet "status" kvs = none ∧ statusField kvs = .error .validation) := by
  cases hg : jsonGet "status" kvs with
  | none => exact Or.inr ⟨rfl, by simp [statusField, hg]⟩
  | some v =>
    rw [hg] at h
    simp only [optShape] at h
    cases v <;> simp [isNumJ] at h
    exact Or.inl ⟨_, rfl, by simp [statusField, hg]⟩

theorem messageField_spec {kvs : List (String × Json)}
    (h : optShape (jsonGet "message" kvs) isStrJ = true) :
    (∃ s, jsonGet "message" kvs = some (.str s) ∧ messageField kvs = .ok s) ∨
      (jsonGet "message" kvs = none ∧ messageField kvs = .error .validation) := by
  cases hg : jsonGet "message" kvs with
  | none => exact Or.inr ⟨rfl, by simp [messageField, hg]⟩
  | some v =>
    rw [hg] at h
    simp only [optShape] at h
    cases v <;> simp [isStrJ] at h
    exact Or.inl ⟨_, rfl, by simp [messageField, hg]⟩

theorem severityField_spec {kvs : List (String × Json)}
    (h : optShape (jsonGet "severity" kvs) isStrJ = true) :
    (∃ s v, jsonGet "severity" kvs = some (.str s) ∧ SeverityEnum.ofName s = some v ∧
        severityField kvs = .ok v) ∨
      (∃ s, jsonGet "severity" kvs = some (.str s) ∧ SeverityEnum.ofName s = none ∧
        severityField kvs = .error .validation) ∨
      (jsonGet "severity" kvs = none ∧ severityField kvs = .error .validation) := by
  cases hg : jsonGet "severity" kvs with
  | none => exact Or.inr (Or.inr ⟨rfl, by simp [severityField, hg]⟩)
  | some v =>
    rw [hg] at h
    simp only [optShape] at h
    cases v <;> simp [isStrJ] at h
    rename_i s
    cases hn : SeverityEnum.ofName s with
    | none => exact Or.inr (Or.inl ⟨s, rfl, hn, by simp [severityField, hg, hn]⟩)
    | some v₂ => exact Or.inl ⟨s, v₂, rfl, hn, by simp [severityField, hg, hn]⟩

theorem openField_ok {kvs : List (String × Json)}
    (h : optShape (jsonGet "open" kvs) isBoolJ = true) :
    ∃ b, openField kvs = .ok b := by
  cases hg : jsonGet "open" kvs with
  | none => exact ⟨true, by simp [openField, hg]⟩
  | some v =>
    rw [hg] at h
    simp only [optShape] at h
    cases v <;> simp [isBoolJ] at h
    rename_i b
    exact ⟨b, by simp [openField, hg]⟩

theorem errorCodeField_ok {kvs : List (String × Json)}
    (h : optShape (jsonGet "error_code" kvs) (fun v => isNullJ v || isUuidStr v) = true) :
    ∃ o, errorCodeField kvs = .ok o := by
  cases hg : jsonGet "error_code" kvs with
  | none => exact ⟨none, by simp [errorCodeField, hg]⟩
  | some v =>
    rw [hg] at h
    simp only [optShape] at h
    cases v <;> simp [isNullJ, isUuidStr] at h
    · exact ⟨none, by simp [errorCodeField, hg]⟩
    · rename_i s
      obtain ⟨u, hu⟩ := Option.isSome_iff_exists.mp h
      exact ⟨some u, by simp [errorCodeField, hg, hu]⟩

theorem payloadField_ok {kvs : List (String × Json)}
    (h : optShape (jsonGet "payload" kvs) (fun v => isNullJ v || isObjJ v) = true) :
    ∃ o, payloadField kvs = .ok o := by
  cases hg : jsonGet "payload" kvs with
  | none => exact ⟨none, by simp [payloadField, hg]⟩
  | some v =>
    rw [hg] at h
    simp only [optShape] at h
    cases v <;> simp [isNullJ, isObjJ] at h
    · exact ⟨none, by simp [payloadField, hg]⟩
    · rename_i o
      exact ⟨some o, by simp [payloadField, hg]⟩

/-- C5: over well-formed wire values, decoding fails (with the aggregated
ValidationError) exactly when a required field (status, severity, message) is
missing or the severity name is not one of error, success, info, warning;
every other well-formed wire value decodes to a StatusMessage. -/
theorem decode_ok_iff_required_and_severity (j : Json)
    (hwf : wellFormedWire j = true) :
    (decode j).isOk = (hasRequiredFields j && severityNameRecognized j) := by
  cases j with
  | obj kvs =>
    simp only [wellFormedWire, Bool.and_eq_true] at hwf
    obtain ⟨⟨⟨⟨⟨⟨hnd, hst⟩, hsev⟩, hmsg⟩, hop⟩, hec⟩, hpl⟩ := hwf
    rcases statusField_spec hst with ⟨n, hsg, hsf⟩ | ⟨hsg, hsf⟩ <;>
      rcases severityField_spec hsev with ⟨s, v, hvg, hvn, hvf⟩ | ⟨s, hvg, hvn, hvf⟩ | ⟨hvg, hvf⟩ <;>
      rcases messageField_spec hmsg with ⟨t, hmg, hmf⟩ | ⟨hmg, hmf⟩ <;>
      obtain ⟨b, hbf⟩ := openField_ok hop <;>
      obtain ⟨eo, hef⟩ := errorCodeField_ok hec <;>
      obtain ⟨po, hpf⟩ := payloadField_ok hpl <;>
      simp [decode, Except.isOk, Except.toBool, hasRequiredFields,
        severityNameRecognized, *]
  | null => simp [wellFormedWire] at hwf
  | bool b => simp [wellFormedWire] at hwf
  | num n => simp [wellFormedWire] at hwf
  | str s => simp [wellFormedWire] at hwf
  | arr elems => simp [wellFormedWire] at hwf

/-- Witness for C5 at a concrete well-formed wire object. -/
theorem decode_ok_iff_required_and_severity_witness :
    wellFormedWire (Json.obj [("status", Json.num 200),
        ("severity", Json.str "success"), ("message", Json.str "Saved")]) = true ∧
    (decode (Json.obj [("status", Json.num 200),
        ("severity", Json.str "success"), ("message", Json.str "Saved")])).isOk =
      (hasRequiredFields (Json.obj [("status", Json.num 200),
          ("severity", Json.str "success"), ("message", Json.str "Saved")]) &&
        severityNameRecognized (Json.obj [("status", Json.num 200),
          ("severity", Json.str "success"), ("message", Json.str "Saved")])) :=
  ⟨rfl, decode_ok_iff_required_and_severity _ rfl⟩

/-! ## BrokerClient (src/database/redis_client.py)

`publish` opens a fresh handle, pushes, and catches only `ConnectionError`
(logging it); `finally` closes the handle.  `subscribe` loops forever around a
blocking pop, catching `ConnectionError` with a warning and a 10-second sleep.
`create_redis` comes from `utils/config.py`, which is not among the sources;
per spec sections 4.2 and 5 publishing uses a fresh, stateless handle per call
and handle creation itself raises nothing (connection establishment is lazy),
so only the transport operations can fail. -/

/-- Outcome of one broker transport interaction. -/
inductive TransportOutcome where
  | ok
  | connFail
  deriving DecidableEq, Repr

/-- What one `publish` call does, as its caller observes it. -/
structure PublishResult where
  /-- The exception escaping to the caller, if any. -/
  raised : Option PyExc
  /-- Whether the message reached the broker queue. -/
  pushed : Bool
  /-- Whether the connectivity failure was logged (message dropped). -/
  loggedError : Bool
  deriving DecidableEq, Repr

/-- `r.lpush(channel, result)`: raises `ConnectionError` when the broker is
unreachable. -/
def lpush : TransportOutcome → Except PyExc Unit
  | .ok => .ok ()
  | .connFail => .error .connectionError

/-- `publish` (src/database/redis_client.py lines 41-63): the push sits in a
try block whose only handler is `except ConnectionError`, which logs the
exception and drops the message; any other exception would propagate. -/
def publish (t : TransportOutcome) : PublishResult :=
  match lpush t with
  | .ok _ => { raised := none, pushed := true, loggedError := false }
  | .error e =>
    match e with
    | .connectionError => { raised := none, pushed := false, loggedError := true }
    | _ => { raised := some e, pushed := false, loggedError := false }

/-- `notify_user` (src/database/redis_client.py lines 93-104): publish the
message on the configured user-notification channel, fire-and-forget. -/
def notify_user (t : TransportOutcome) : PublishResult := publish t

/-- C6: publish never raises to its caller and returns no failure indication;
on a transport connectivity error the message is logged and dropped, and the
fire-and-forget `notify_user` entry point likewise never raises. -/
theorem publish_never_raises (t : TransportOutcome) :
    (publish t).raised = none ∧ (notify_user t).raised = none ∧
    (t = .connFail → (publish t).pushed = false ∧ (publish t).loggedError = true) := by
  cases t <;> simp [publish, notify_user, lpush]

/-- Witness for C6 at the failing transport. -/
theorem publish_never_raises_witness :
    (publish .connFail).raised = none ∧ (notify_user .connFail).raised = none ∧
    (publish .connFail).pushed = false ∧ (publish .connFail).loggedError = true :=
  ⟨(publish_never_raises .connFail).1, (publish_never_raises .connFail).2.1,
   ((publish_never_raises .connFail).2.2 rfl).1,
   ((publish_never_raises .connFail).2.2 rfl).2⟩

/-- One iteration's broker event seen by the subscribe loop: either `blpop`
raises `ConnectionError`, or it returns a `(channel, data)` pair.  The data is
carried as its parsed JSON value (a payload whose text is not valid JSON is a
value that fails validation all the same). -/
inductive BrokerEv where
  | connFail
  | pop (chl : String) (data : Option Json)

/-- An action of the subscribe loop. -/
inductive SubAction where
  | backoff (seconds : Nat)
  | invoke (payload : Json)

/-- The `while True` loop of `subscribe` (src/database/redis_client.py lines
81-90) consuming a finite prefix of broker events: `ConnectionError` from the
blocking pop is caught, a warning logged, and 10 seconds slept before
retrying; a popped message is handed to the callback when its data is not
None and its channel matches the subscribed one.  No event ends the loop. -/
def subscribeRun (channel : String) : List BrokerEv → List SubAction
  | [] => []
  | .connFail :: rest => .backoff 10 :: subscribeRun channel rest
  | .pop chl (some d) :: rest =>
    if chl = channel then .invoke d :: subscribeRun channel rest
    else subscribeRun channel rest
  | .pop _ none :: rest => subscribeRun channel rest

/-- C7: every connectivity failure causes exactly one fixed 10-unit backoff
followed by a retry, and the loop never terminates on transient failure:
after k consecutive failures, k backoffs occur and a subsequent successful
pop on the subscribed channel is still handed to the callback. -/
theorem subscribe_backoff_and_retry (channel : String) (k : Nat) (d : Json) :
    subscribeRun channel (List.replicate k .connFail ++ [.pop channel (some d)]) =
      List.replicate k (.backoff 10) ++ [.invoke d] := by
  induction k with
  | zero => simp [subscribeRun]
  | succ n ih => simp [List.replicate_succ, subscribeRun, ih]

/-- A per-message outcome of the subscription pipeline. -/
inductive LoopAction where
  | backoff (seconds : Nat)
  | delivered (m : StatusMessage)
  | discarded

/-- Modelled from the spec: the DeliveryDispatcher handler that `subscribe`
invokes is not among the sources (only the subscribe loop is).  Spec sections
4.3 and 7: the handler decodes each surfaced payload; a decode failure is
logged and the message discarded, never propagated, so the loop is
unaffected. -/
def dispatcherHandle (j : Json) : LoopAction :=
  match decode j with
  | .ok m => .delivered m
  | .error _ => .discarded

/-- The subscribe loop composed with the dispatcher handler. -/
def dispatchRun (channel : String) (evs : List BrokerEv) : List LoopAction :=
  (subscribeRun channel evs).map fun a =>
    match a with
    | .backoff s => .backoff s
    | .invoke j => dispatcherHandle j

/-- C8: a surfaced message whose payload fails to decode is discarded without
terminating the subscription loop — the remaining events are processed
exactly as they would be on their own — while a decodable payload in the same
position is delivered. -/
theorem malformed_payload_discarded_loop_continues (channel : String) (j : Json)
    (evs : List BrokerEv) :
    ((decode j).isOk = false →
      dispatchRun channel (.pop channel (some j) :: evs) =
        .discarded :: dispatchRun channel evs) ∧
    (∀ m, decode j = .ok m →
      dispatchRun channel (.pop channel (some j) :: evs) =
        .delivered m :: dispatchRun channel evs) := by
  constructor
  · intro h
    cases hd : decode j with
    | ok m => simp [Except.isOk, Except.toBool, hd] at h
    | error e => simp [dispatchRun, subscribeRun, dispatcherHandle, hd]
  · intro m hd
    simp [dispatchRun, subscribeRun, dispatcherHandle, hd]

/-- Witness for C8: a malformed payload (an empty object) is discarded and
the valid payload right after it is still delivered. -/
theorem malformed_payload_discarded_loop_continues_witness :
    (decode (Json.obj [])).isOk = false ∧
    dispatchRun "notify"
        [BrokerEv.pop "notify" (some (Json.obj [])),
         BrokerEv.pop "notify" (some (Json.obj [("status", Json.num 200),
           ("severity", Json.str "success"), ("message", Json.str "Saved")]))] =
      [LoopAction.discarded,
       LoopAction.delivered { status := 200, severity := .success, message := "Saved" }] := by
  refine ⟨rfl, ?_⟩
  have h := (malformed_payload_discarded_loop_continues "notify" (Json.obj [])
    [BrokerEv.pop "notify" (some (Json.obj [("status", Json.num 200),
      ("severity", Json.str "success"), ("message", Json.str "Saved")]))]).1 rfl
  rw [h]
  rfl

end Lumina
